import Mathlib

set_option maxRecDepth 10000

/-!
Verification of the gb-stopwatch firmware's timekeeping core.

The repository holds two near-duplicate revisions of the firmware:
* `src/src/main.c` — the binary-counter variant: `hundredths` counts 0..99
  (100 ticks per second), `seconds` and `minutes` are plain binary bytes;
* `src/unnamed/part_000` — the BCD-packed variant: `hundredths` counts 0..127
  (128 ticks per second, masked with `& 0x7F`), `seconds` and `minutes` are
  binary-coded-decimal bytes advanced with `add 1; daa`.

Machine bytes are modelled as `Nat` with explicit `% 256` where the C code's
`uint8_t` arithmetic can overflow.  Hardware register writes (TAC/TMA/TIMA) are
modelled as fields of the explicit state record; display and sound writes are
side effects outside the counters and are not part of the state, except that
`handle_stopwatch` reports whether it fired the tick cue.
-/

namespace GBStopwatch

/-- GBDK joypad bit for the A (confirm) button. -/
def J_A : Nat := 0x10

/-- GBDK joypad bit for the B (cancel/reset) button. -/
def J_B : Nat := 0x20

/-- `TAC_REG_STOP` from main.c: timer stopped. -/
def TAC_REG_STOP : Nat := 0x00

/-- `TAC_REG_START_1024` from main.c: timer running, CPU clock / 1024. -/
def TAC_REG_START_1024 : Nat := 0x04

/-- `TAC_REG_START_256` from main.c: timer running, CPU clock / 256. -/
def TAC_REG_START_256 : Nat := 0x07

/-- GBDK `TACF_STOP`. -/
def TACF_STOP : Nat := 0x00

/-- GBDK `TACF_4KHZ` (clock source bits for CPU clock / 1024). -/
def TACF_4KHZ : Nat := 0x00

/-- GBDK `TACF_START` (timer enable bit). -/
def TACF_START : Nat := 0x04

/-- `TMA_REG_REALTIME_DMG` from main.c (0x5C = 92). -/
def TMA_REG_REALTIME_DMG : Nat := 0x5C

/-- `TMA_REG_REALTIME_GBC` from main.c (0xAE = 174). -/
def TMA_REG_REALTIME_GBC : Nat := 0xAE

/-- The firmware's mutable globals that the timekeeping core touches, plus the
hardware timer registers it writes.  `prev_joypad` is the `static` local of
`handle_inputs`. -/
structure SWState where
  minutes : Nat
  seconds : Nat
  hundredths : Nat
  stopwatch : Bool
  play_tick_sfx : Bool
  tac : Nat
  tma : Nat
  tima : Nat
  prev_joypad : Nat
  deriving Repr, DecidableEq

/-- The zeroed boot state: all globals start at 0 / false. -/
def boot : SWState :=
  { minutes := 0, seconds := 0, hundredths := 0, stopwatch := false,
    play_tick_sfx := false, tac := 0, tma := 0, tima := 0, prev_joypad := 0 }

/-- `stopwatch_timer_isr` from `src/src/main.c` (binary-counter variant):

    if (stopwatch) {
      hundredths++;
      if (hundredths >= 100) {
        hundredths = 0; seconds++; play_tick_sfx = TRUE;
        if (seconds >= 60) { seconds = 0; minutes++; }
      }
    }

`hundredths++`, `seconds++`, `minutes++` are `uint8_t` increments, hence the
`% 256`. -/
def stopwatch_timer_isr (s : SWState) : SWState :=
  if s.stopwatch then
    let h := (s.hundredths + 1) % 256
    if 100 ≤ h then
      let sec := (s.seconds + 1) % 256
      if 60 ≤ sec then
        { s with hundredths := 0, seconds := 0,
                 minutes := (s.minutes + 1) % 256, play_tick_sfx := true }
      else
        { s with hundredths := 0, seconds := sec, play_tick_sfx := true }
    else
      { s with hundredths := h }
  else s

/-- The Game Boy `daa` adjustment after an addition, given the half-carry and
carry flags left by that addition: add 0x06 when the low nibble overflowed
decimal, add 0x60 when the high nibble did, modulo 256. -/
def daaAdd (a : Nat) (hFlag cFlag : Bool) : Nat :=
  let adjLo := if hFlag || 9 < a % 16 then 0x06 else 0x00
  let adjHi := if cFlag || 0x99 < a then 0x60 else 0x00
  (a + adjLo + adjHi) % 256

/-- The inline-assembly snippet `ld a,(x); add #0x01; daa; ld (x),a` of
`part_000`: plain binary add-one followed by decimal-adjust. -/
def bcdIncrement (b : Nat) : Nat :=
  daaAdd ((b + 1) % 256) (decide (16 ≤ b % 16 + 1)) (decide (256 ≤ b + 1))

/-- `stopwatch_timer_isr` from `src/unnamed/part_000` (BCD-packed variant):

    if (stopwatch) {
      hundredths = (hundredths + 1) & 0x7F;
      if (hundredths == 0) {
        seconds = bcdIncrement(seconds);   // add #0x01 ; daa
        play_tick_sfx = TRUE;
        if (seconds >= 0x60) { seconds = 0x00; minutes = bcdIncrement(minutes); }
      }
    }
-/
def stopwatch_timer_isr_bcd (s : SWState) : SWState :=
  if s.stopwatch then
    let h := ((s.hundredths + 1) % 256) &&& 0x7F
    if h = 0 then
      let sec := bcdIncrement s.seconds
      if 0x60 ≤ sec then
        { s with hundredths := h, seconds := 0,
                 minutes := bcdIncrement s.minutes, play_tick_sfx := true }
      else
        { s with hundredths := h, seconds := sec, play_tick_sfx := true }
    else
      { s with hundredths := h }
  else s

/-- `reset_stopwatch` (both variants): clear the run flag and zero all three
counters.  The sound and redraw calls have no effect on the modelled state. -/
def reset_stopwatch (s : SWState) : SWState :=
  { s with stopwatch := false, minutes := 0, seconds := 0, hundredths := 0 }

/-- `pause_stopwatch` (both variants): `TAC_REG = TAC_REG_STOP; stopwatch = FALSE;`
inside a critical section.  TIMA/TMA are deliberately not touched ("dont reset
TIMA_REG, pick up where it left off"). -/
def pause_stopwatch (s : SWState) : SWState :=
  { s with tac := TAC_REG_STOP, stopwatch := false }

/-- `start_stopwatch` from `src/src/main.c`:
`TAC_REG = is_cpu_fast ? TAC_REG_START_1024 : TAC_REG_START_256; stopwatch = TRUE;` -/
def start_stopwatch (is_cpu_fast : Bool) (s : SWState) : SWState :=
  { s with tac := if is_cpu_fast then TAC_REG_START_1024 else TAC_REG_START_256,
           stopwatch := true }

/-- `start_stopwatch` from `src/unnamed/part_000`:
`TAC_REG = TACF_4KHZ | TACF_START; stopwatch = TRUE;` (same divider either speed). -/
def start_stopwatch_bcd (s : SWState) : SWState :=
  { s with tac := TACF_4KHZ ||| TACF_START, stopwatch := true }

/-- `handle_inputs` (identical in both variants, modulo which `start_stopwatch`
it calls — selected here by `useBcdStart`): detect rising edges of A and B
against `prev_joypad`; A toggles start/pause, B resets only when the stopwatch
is not running (the `!stopwatch` test is evaluated after the A branch ran). -/
def handle_inputs (useBcdStart is_cpu_fast : Bool) (cur : Nat) (s : SWState) :
    SWState :=
  let s1 :=
    if cur &&& J_A ≠ 0 ∧ s.prev_joypad &&& J_A = 0 then
      if s.stopwatch then pause_stopwatch s
      else if useBcdStart then start_stopwatch_bcd s else start_stopwatch is_cpu_fast s
    else s
  let s2 :=
    if cur &&& J_B ≠ 0 ∧ s.prev_joypad &&& J_B = 0 ∧ s1.stopwatch = false then
      reset_stopwatch s1
    else s1
  { s2 with prev_joypad := cur }

/-- `handle_stopwatch` (both variants): when running, redraw and, if the
tick-cue flag is set, fire the cue and clear the flag.  The returned Bool
records whether the cue (sfx_2) fired this frame. -/
def handle_stopwatch (s : SWState) : SWState × Bool :=
  if s.stopwatch then
    if s.play_tick_sfx then ({ s with play_tick_sfx := false }, true)
    else (s, false)
  else (s, false)

/-- One iteration of the main loop: `handle_inputs(); vsync(); handle_stopwatch();`
with the frame's polled joypad value `cur`. -/
def frame (useBcdStart is_cpu_fast : Bool) (cur : Nat) (s : SWState) : SWState :=
  (handle_stopwatch (handle_inputs useBcdStart is_cpu_fast cur s)).1

/-- `set_timer_realtime_reg` from `src/src/main.c`: the (TMA, TIMA) pair written
for the given CPU speed. -/
def set_timer_realtime_reg (is_cpu_fast : Bool) : Nat × Nat :=
  if is_cpu_fast then (TMA_REG_REALTIME_GBC, TMA_REG_REALTIME_GBC)
  else (TMA_REG_REALTIME_DMG, TMA_REG_REALTIME_DMG)

/-- `set_timer_reg_stopwatch` from `src/unnamed/part_000`: the TMA byte written
for the given CPU speed (`(uint8_t)(0x100 - 32)` slow, `(uint8_t)(0x100 - 64)`
fast). -/
def set_timer_reg_stopwatch (is_cpu_fast : Bool) : Nat :=
  if is_cpu_fast then (0x100 - 64) % 256 else (0x100 - 32) % 256

/-- `MilTable128` from `src/unnamed/part_000`: the 128-entry table mapping the
raw 0..127 sub-unit value to its two ASCII decimal digits. -/
def MilTable128 : List String :=
  ["00", "00", "01", "02",
   "03", "03", "04", "05",
   "06", "07", "07", "08",
   "09", "10", "10", "11",
   "12", "13", "14", "14",
   "15", "16", "17", "17",
   "18", "19", "20", "21",
   "21", "22", "23", "24",
   "25", "25", "26", "27",
   "28", "28", "29", "30",
   "31", "32", "32", "33",
   "34", "35", "35", "36",
   "37", "38", "39", "39",
   "40", "41", "42", "42",
   "43", "44", "45", "46",
   "46", "47", "48", "49",
   "50", "50", "51", "52",
   "53", "53", "54", "55",
   "56", "57", "57", "58",
   "59", "60", "60", "61",
   "62", "63", "64", "64",
   "65", "66", "67", "67",
   "68", "69", "70", "71",
   "71", "72", "73", "74",
   "75", "75", "76", "77",
   "78", "78", "79", "80",
   "81", "82", "82", "83",
   "84", "85", "85", "86",
   "87", "88", "89", "89",
   "90", "91", "92", "92",
   "93", "94", "95", "96",
   "96", "97", "98", "99"]

/-- Out-of-range fallbacks for reading the table (never reached for v < 128). -/
def milFallbackEntry : String := "00"

def milFallbackChar : Char := '0'

/-- The tile value `print_stopwatch` writes for digit position `i` (0 or 1) of
the hundredths field, minus the font base: `MilTable128[hundredths][i] - '0'`. -/
def milDigit (v i : Nat) : Nat :=
  ((MilTable128.getD v milFallbackEntry).toList.getD i milFallbackChar).toNat - 48

/-- The two-digit decimal number the hundredths field displays for raw value `v`. -/
def milValue (v : Nat) : Nat := 10 * milDigit v 0 + milDigit v 1

/-- Binary-coded-decimal encoding of a two-digit number: tens in the high
nibble, units in the low nibble. -/
def toBCD (n : Nat) : Nat := 16 * (n / 10) + n % 10

/-- True iff the binary-variant ISR invoked from state `s` executes the
`play_tick_sfx = TRUE` assignment (i.e. takes the `hundredths >= 100` branch). -/
def setsTickFlag (s : SWState) : Bool :=
  s.stopwatch && decide (100 ≤ (s.hundredths + 1) % 256)

/-- True iff the BCD-variant ISR invoked from state `s` executes the
`play_tick_sfx = TRUE` assignment (i.e. takes the `hundredths == 0` branch). -/
def setsTickFlagBcd (s : SWState) : Bool :=
  s.stopwatch && decide (((s.hundredths + 1) % 256) &&& 0x7F = 0)

/-- States reachable from boot by any interleaving of ISR invocations and
main-loop input handling / rendering, in the binary variant. -/
inductive Reach (is_cpu_fast : Bool) : SWState → Prop
  | boot : Reach is_cpu_fast boot
  | isr {s} : Reach is_cpu_fast s → Reach is_cpu_fast (stopwatch_timer_isr s)
  | inputs {s} (cur : Nat) : Reach is_cpu_fast s →
      Reach is_cpu_fast (handle_inputs false is_cpu_fast cur s)
  | loop {s} : Reach is_cpu_fast s → Reach is_cpu_fast (handle_stopwatch s).1
  | start {s} : Reach is_cpu_fast s → Reach is_cpu_fast (start_stopwatch is_cpu_fast s)
  | pause {s} : Reach is_cpu_fast s → Reach is_cpu_fast (pause_stopwatch s)
  | reset {s} : Reach is_cpu_fast s → Reach is_cpu_fast (reset_stopwatch s)

/-- States reachable from boot by any interleaving of ISR invocations, start,
pause, reset and main-loop input handling / rendering, in the BCD-packed
variant. -/
inductive ReachBcd (is_cpu_fast : Bool) : SWState → Prop
  | boot : ReachBcd is_cpu_fast boot
  | isr {s} : ReachBcd is_cpu_fast s → ReachBcd is_cpu_fast (stopwatch_timer_isr_bcd s)
  | inputs {s} (cur : Nat) : ReachBcd is_cpu_fast s →
      ReachBcd is_cpu_fast (handle_inputs true is_cpu_fast cur s)
  | loop {s} : ReachBcd is_cpu_fast s → ReachBcd is_cpu_fast (handle_stopwatch s).1
  | start {s} : ReachBcd is_cpu_fast s → ReachBcd is_cpu_fast (start_stopwatch_bcd s)
  | pause {s} : ReachBcd is_cpu_fast s → ReachBcd is_cpu_fast (pause_stopwatch s)
  | reset {s} : ReachBcd is_cpu_fast s → ReachBcd is_cpu_fast (reset_stopwatch s)

/-! ## Helper lemmas -/

/-- Masking with `0x7F` is reduction modulo 128 (on byte-sized values). -/
lemma mask127_eq_mod (x : Nat) (hx : x < 257) : x &&& 127 = x % 128 := by
  revert hx; revert x; decide

/-- On a valid two-digit BCD byte, `add 1; daa` realises decimal increment
modulo 100. -/
lemma bcdIncrement_toBCD (n : Nat) (hn : n < 100) :
    bcdIncrement (toBCD n) = toBCD ((n + 1) % 100) := by
  revert hn; revert n; decide

/-- The `>= 0x60` rollover test on a BCD byte reads the encoded value. -/
lemma le96_toBCD (n : Nat) (hn : n < 100) : 96 ≤ toBCD n ↔ 60 ≤ n := by
  revert hn; revert n; decide

/-- Decimal increment changes a BCD seconds byte. -/
lemma toBCD_succ_ne (n : Nat) (hn : n < 59) : toBCD (n + 1) ≠ toBCD n := by
  revert hn; revert n; decide

/-- One binary-variant ISR invocation on a running in-range state, written as
an explicit case split on the two carries. -/
lemma isr_bin_cases (m sec h : Nat) (p : Bool) (tac tma tima pj : Nat)
    (hh : h < 100) (hs : sec < 60) :
    stopwatch_timer_isr ⟨m, sec, h, true, p, tac, tma, tima, pj⟩ =
      if h = 99 then
        (if sec = 59 then ⟨(m + 1) % 256, 0, 0, true, true, tac, tma, tima, pj⟩
         else ⟨m, sec + 1, 0, true, true, tac, tma, tima, pj⟩)
      else ⟨m, sec, h + 1, true, p, tac, tma, tima, pj⟩ := by
  simp only [stopwatch_timer_isr, if_true]
  by_cases h99 : h = 99
  · subst h99
    rw [show ((99 : Nat) + 1) % 256 = 100 from rfl, if_pos (le_refl 100),
      Nat.mod_eq_of_lt (by omega : sec + 1 < 256), if_pos rfl]
    by_cases hs59 : sec = 59
    · subst hs59
      rw [if_pos (by omega), if_pos rfl]
    · rw [if_neg (by omega), if_neg hs59]
  · rw [Nat.mod_eq_of_lt (by omega : h + 1 < 256), if_neg (by omega), if_neg h99]

/-- Closed form for `t` binary-variant ISR invocations from a zero-counter
running state: hundredths cycle mod 100, seconds mod 60, minutes wrap only at
the `uint8_t` bound 256, and the tick-cue flag has been set as soon as a full
second elapsed. -/
lemma isr_iterate_closed (tac tma tima pj : Nat) (t : Nat) :
    stopwatch_timer_isr^[t] ⟨0, 0, 0, true, false, tac, tma, tima, pj⟩ =
      ⟨(t / 6000) % 256, (t / 100) % 60, t % 100, true,
       decide (100 ≤ t), tac, tma, tima, pj⟩ := by
  induction t with
  | zero => simp
  | succ t ih =>
    rw [Function.iterate_succ_apply', ih,
      isr_bin_cases _ _ _ _ _ _ _ _ (Nat.mod_lt _ (by omega)) (Nat.mod_lt _ (by omega))]
    by_cases h99 : t % 100 = 99
    · rw [if_pos h99]
      by_cases h59 : t / 100 % 60 = 59
      · rw [if_pos h59]
        simp only [SWState.mk.injEq, and_true, true_and]
        refine ⟨by omega, by omega, by omega, ?_⟩
        rw [eq_comm, decide_eq_true_eq]; omega
      · rw [if_neg h59]
        simp only [SWState.mk.injEq, and_true, true_and]
        refine ⟨by omega, by omega, by omega, ?_⟩
        rw [eq_comm, decide_eq_true_eq]; omega
    · rw [if_neg h99]
      simp only [SWState.mk.injEq, and_true, true_and]
      refine ⟨by omega, by omega, by omega, ?_⟩
      rw [decide_eq_decide]; omega

/-- A BCD-variant ISR invocation that does not roll the sub-unit counter only
advances it. -/
lemma isr_bcd_step_no_roll (μ σ h : Nat) (p : Bool) (tac tma tima pj : Nat)
    (hh : h < 127) :
    stopwatch_timer_isr_bcd ⟨μ, σ, h, true, p, tac, tma, tima, pj⟩ =
      ⟨μ, σ, h + 1, true, p, tac, tma, tima, pj⟩ := by
  simp only [stopwatch_timer_isr_bcd, if_true]
  have e : ((h + 1) % 256) &&& 127 = h + 1 := by
    rw [mask127_eq_mod _ (by omega)]; omega
  rw [e, if_neg (by omega)]

/-- A BCD-variant ISR invocation that rolls the sub-unit counter while the
seconds byte is below 0x59 decimal-increments seconds and sets the cue flag. -/
lemma isr_bcd_step_sec (μ σ : Nat) (p : Bool) (tac tma tima pj : Nat)
    (hσ : σ < 59) :
    stopwatch_timer_isr_bcd ⟨μ, toBCD σ, 127, true, p, tac, tma, tima, pj⟩ =
      ⟨μ, toBCD (σ + 1), 0, true, true, tac, tma, tima, pj⟩ := by
  simp only [stopwatch_timer_isr_bcd, if_true]
  have e : ((127 + 1) % 256) &&& 127 = 0 := by decide
  rw [e, if_pos rfl, bcdIncrement_toBCD _ (by omega)]
  have e2 : (σ + 1) % 100 = σ + 1 := by omega
  rw [e2, if_neg (by rw [show (0x60 : Nat) = 96 from rfl, le96_toBCD _ (by omega)]; omega)]

/-- A BCD-variant ISR invocation that rolls the sub-unit counter at 0x59
seconds zeroes seconds and decimal-increments minutes. -/
lemma isr_bcd_step_min (μ : Nat) (p : Bool) (tac tma tima pj : Nat)
    (hμ : μ < 100) :
    stopwatch_timer_isr_bcd ⟨toBCD μ, toBCD 59, 127, true, p, tac, tma, tima, pj⟩ =
      ⟨toBCD ((μ + 1) % 100), 0, 0, true, true, tac, tma, tima, pj⟩ := by
  simp only [stopwatch_timer_isr_bcd, if_true]
  have e : ((127 + 1) % 256) &&& 127 = 0 := by decide
  rw [e, if_pos rfl, bcdIncrement_toBCD _ (by omega),
    bcdIncrement_toBCD _ (by omega)]
  rw [if_pos (by decide)]

/-- Closed form for `t` BCD-variant ISR invocations from a zero-counter running
state: hundredths cycle mod 128, seconds hold the BCD encoding of the elapsed
seconds mod 60, minutes the BCD encoding of the elapsed minutes mod 100. -/
lemma isr_bcd_iterate_closed (tac tma tima pj : Nat) (t : Nat) :
    stopwatch_timer_isr_bcd^[t] ⟨0, 0, 0, true, false, tac, tma, tima, pj⟩ =
      ⟨toBCD ((t / 7680) % 100), toBCD ((t / 128) % 60), t % 128, true,
       decide (128 ≤ t), tac, tma, tima, pj⟩ := by
  induction t with
  | zero => simp [toBCD]
  | succ t ih =>
    rw [Function.iterate_succ_apply', ih]
    by_cases h127 : t % 128 = 127
    · by_cases h59 : t / 128 % 60 = 59
      · rw [h127, h59, isr_bcd_step_min _ _ _ _ _ _ (by omega)]
        simp only [SWState.mk.injEq, and_true, true_and]
        refine ⟨congrArg toBCD (by omega), ?_, by omega, ?_⟩
        · rw [show (t + 1) / 128 % 60 = 0 by omega]; decide
        · rw [eq_comm, decide_eq_true_eq]; omega
      · rw [h127, isr_bcd_step_sec _ _ _ _ _ _ _ (by omega)]
        simp only [SWState.mk.injEq, and_true, true_and]
        refine ⟨congrArg toBCD (by omega), congrArg toBCD (by omega), by omega, ?_⟩
        rw [eq_comm, decide_eq_true_eq]; omega
    · rw [isr_bcd_step_no_roll _ _ _ _ _ _ _ _ (by omega)]
      simp only [SWState.mk.injEq, and_true, true_and]
      refine ⟨congrArg toBCD (by omega), congrArg toBCD (by omega), by omega, ?_⟩
      rw [decide_eq_decide]; omega

/-- The zeroed state with the run flag raised: what holds right after
`start_stopwatch` at boot. -/
def runningBoot : SWState := { boot with stopwatch := true }

lemma runningBoot_eq : runningBoot = ⟨0, 0, 0, true, false, 0, 0, 0, 0⟩ := rfl

/-- The binary-variant ISR keeps the counter ranges: hundredths below 100,
seconds below 60, minutes below 256 (a `uint8_t`). -/
lemma isr_bin_preserves (s : SWState) (hh : s.hundredths < 100)
    (hs : s.seconds < 60) (hm : s.minutes < 256) :
    (stopwatch_timer_isr s).hundredths < 100 ∧ (stopwatch_timer_isr s).seconds < 60 ∧
    (stopwatch_timer_isr s).minutes < 256 := by
  obtain ⟨m, sec, h, st, p, tac, tma, tima, pj⟩ := s
  dsimp only at hh hs hm
  cases st
  · simpa [stopwatch_timer_isr] using ⟨hh, hs, hm⟩
  · rw [isr_bin_cases _ _ _ _ _ _ _ _ hh hs]
    split_ifs <;> exact ⟨by dsimp only; omega, by dsimp only; omega, by dsimp only; omega⟩

/-- The BCD-variant ISR keeps the counter ranges and encodings: hundredths
below 128, seconds a valid BCD byte below 0x60, minutes a valid BCD byte. -/
lemma isr_bcd_preserves (s : SWState) (hh : s.hundredths < 128)
    (hs : ∃ σ, σ < 60 ∧ s.seconds = toBCD σ)
    (hm : ∃ μ, μ < 100 ∧ s.minutes = toBCD μ) :
    (stopwatch_timer_isr_bcd s).hundredths < 128 ∧
    (∃ σ, σ < 60 ∧ (stopwatch_timer_isr_bcd s).seconds = toBCD σ) ∧
    (∃ μ, μ < 100 ∧ (stopwatch_timer_isr_bcd s).minutes = toBCD μ) := by
  obtain ⟨σ, hσ, hseq⟩ := hs
  obtain ⟨μ, hμ, hmeq⟩ := hm
  obtain ⟨m, sec, h, st, p, tac, tma, tima, pj⟩ := s
  dsimp only at hh hseq hmeq
  subst hseq
  subst hmeq
  cases st
  · simpa [stopwatch_timer_isr_bcd] using ⟨hh, ⟨σ, hσ, rfl⟩, ⟨μ, hμ, rfl⟩⟩
  · by_cases h127 : h = 127
    · subst h127
      by_cases hσ59 : σ = 59
      · subst hσ59
        rw [isr_bcd_step_min _ _ _ _ _ _ hμ]
        exact ⟨by dsimp only; omega, ⟨0, by omega, rfl⟩, ⟨(μ + 1) % 100, by omega, rfl⟩⟩
      · rw [isr_bcd_step_sec _ _ _ _ _ _ _ (by omega)]
        exact ⟨by dsimp only; omega, ⟨σ + 1, by omega, rfl⟩, ⟨μ, hμ, rfl⟩⟩
    · rw [isr_bcd_step_no_roll _ _ _ _ _ _ _ _ (by omega)]
      exact ⟨by dsimp only; omega, ⟨σ, hσ, rfl⟩, ⟨μ, hμ, rfl⟩⟩

/-- `handle_inputs` either leaves all three counters alone or zeroes them
(through `reset_stopwatch`). -/
lemma handle_inputs_counters (u f : Bool) (cur : Nat) (s : SWState) :
    ((handle_inputs u f cur s).minutes = s.minutes ∧
     (handle_inputs u f cur s).seconds = s.seconds ∧
     (handle_inputs u f cur s).hundredths = s.hundredths) ∨
    ((handle_inputs u f cur s).minutes = 0 ∧
     (handle_inputs u f cur s).seconds = 0 ∧
     (handle_inputs u f cur s).hundredths = 0) := by
  simp only [handle_inputs, pause_stopwatch, start_stopwatch, start_stopwatch_bcd,
    reset_stopwatch]
  split_ifs <;>
    first
      | exact Or.inl ⟨rfl, rfl, rfl⟩
      | exact Or.inr ⟨rfl, rfl, rfl⟩

/-- The main-loop consumer never touches the counters. -/
lemma handle_stopwatch_counters (s : SWState) :
    (handle_stopwatch s).1.minutes = s.minutes ∧
    (handle_stopwatch s).1.seconds = s.seconds ∧
    (handle_stopwatch s).1.hundredths = s.hundredths := by
  unfold handle_stopwatch
  split_ifs <;> exact ⟨rfl, rfl, rfl⟩

/-! ## Claims -/

/-- C1: For every tick count t in [0, N*3600), running the ISR t times from the
zeroed state with RunState = Running throughout yields
minutes = (t / (N*60)) mod 60, seconds = (t / N) mod 60 and subUnit = t mod N,
where N = 100 for the binary-counter variant and N = 128 for the BCD-packed
variant (whose minutes and seconds fields store those values in BCD). -/
theorem claim_c1_closed_form :
    (∀ t, t < 100 * 3600 →
      (stopwatch_timer_isr^[t] runningBoot).minutes = t / (100 * 60) % 60 ∧
      (stopwatch_timer_isr^[t] runningBoot).seconds = t / 100 % 60 ∧
      (stopwatch_timer_isr^[t] runningBoot).hundredths = t % 100) ∧
    (∀ t, t < 128 * 3600 →
      (stopwatch_timer_isr_bcd^[t] runningBoot).minutes = toBCD (t / (128 * 60) % 60) ∧
      (stopwatch_timer_isr_bcd^[t] runningBoot).seconds = toBCD (t / 128 % 60) ∧
      (stopwatch_timer_isr_bcd^[t] runningBoot).hundredths = t % 128) := by
  constructor
  · intro t ht
    rw [runningBoot_eq, isr_iterate_closed]
    refine ⟨by dsimp only; omega, by dsimp only, by dsimp only⟩
  · intro t ht
    rw [runningBoot_eq, isr_bcd_iterate_closed]
    refine ⟨by dsimp only; exact congrArg toBCD (by omega), by dsimp only,
            by dsimp only⟩

/-- Witness for C1 at t = 6000 (binary, one minute exactly) and t = 7681 (BCD,
one minute plus one tick). -/
theorem claim_c1_witness :
    (stopwatch_timer_isr^[6000] runningBoot).minutes = 1 ∧
    (stopwatch_timer_isr^[6000] runningBoot).seconds = 0 ∧
    (stopwatch_timer_isr^[6000] runningBoot).hundredths = 0 ∧
    (stopwatch_timer_isr_bcd^[7681] runningBoot).minutes = toBCD 1 ∧
    (stopwatch_timer_isr_bcd^[7681] runningBoot).hundredths = 1 := by
  obtain ⟨hb, hc⟩ := claim_c1_closed_form
  obtain ⟨b1, b2, b3⟩ := hb 6000 (by norm_num)
  obtain ⟨c1, _, c3⟩ := hc 7681 (by norm_num)
  refine ⟨?_, ?_, ?_, ?_, ?_⟩
  · rw [b1]
  · rw [b2]
  · rw [b3]
  · rw [c1]; try decide
  · rw [c3]

/-- C2: For every single ISR invocation while Running (on a state whose fields
are in range), the sub-unit counter advances by exactly one (mod N), all
carries are resolved before the invocation returns (the resulting fields are in
range again), and the invocation writes the tick-cue flag iff it changed the
seconds field. -/
theorem claim_c2_isr_tick_contract :
    (∀ (m sec h : Nat) (p : Bool) (tac tma tima pj : Nat), h < 100 → sec < 60 → m < 256 →
      (stopwatch_timer_isr ⟨m, sec, h, true, p, tac, tma, tima, pj⟩).hundredths
          = (h + 1) % 100 ∧
      ((stopwatch_timer_isr ⟨m, sec, h, true, p, tac, tma, tima, pj⟩).hundredths < 100 ∧
       (stopwatch_timer_isr ⟨m, sec, h, true, p, tac, tma, tima, pj⟩).seconds < 60 ∧
       (stopwatch_timer_isr ⟨m, sec, h, true, p, tac, tma, tima, pj⟩).minutes < 256) ∧
      (stopwatch_timer_isr ⟨m, sec, h, true, p, tac, tma, tima, pj⟩).play_tick_sfx
          = (setsTickFlag ⟨m, sec, h, true, p, tac, tma, tima, pj⟩ || p) ∧
      (setsTickFlag ⟨m, sec, h, true, p, tac, tma, tima, pj⟩ = true ↔
        (stopwatch_timer_isr ⟨m, sec, h, true, p, tac, tma, tima, pj⟩).seconds ≠ sec)) ∧
    (∀ (μ σ h : Nat) (p : Bool) (tac tma tima pj : Nat), h < 128 → σ < 60 → μ < 100 →
      (stopwatch_timer_isr_bcd ⟨toBCD μ, toBCD σ, h, true, p, tac, tma, tima, pj⟩).hundredths
          = (h + 1) % 128 ∧
      (∃ σ2, σ2 < 60 ∧
        (stopwatch_timer_isr_bcd ⟨toBCD μ, toBCD σ, h, true, p, tac, tma, tima, pj⟩).seconds
          = toBCD σ2) ∧
      (∃ μ2, μ2 < 100 ∧
        (stopwatch_timer_isr_bcd ⟨toBCD μ, toBCD σ, h, true, p, tac, tma, tima, pj⟩).minutes
          = toBCD μ2) ∧
      (stopwatch_timer_isr_bcd ⟨toBCD μ, toBCD σ, h, true, p, tac, tma, tima, pj⟩).play_tick_sfx
          = (setsTickFlagBcd ⟨toBCD μ, toBCD σ, h, true, p, tac, tma, tima, pj⟩ || p) ∧
      (setsTickFlagBcd ⟨toBCD μ, toBCD σ, h, true, p, tac, tma, tima, pj⟩ = true ↔
        (stopwatch_timer_isr_bcd ⟨toBCD μ, toBCD σ, h, true, p, tac, tma, tima, pj⟩).seconds
          ≠ toBCD σ)) := by
  constructor
  · intro m sec h p tac tma tima pj hh hs hm
    have hflag : setsTickFlag ⟨m, sec, h, true, p, tac, tma, tima, pj⟩ = decide (h = 99) := by
      simp only [setsTickFlag, Bool.true_and]
      rw [decide_eq_decide]
      omega
    rw [isr_bin_cases _ _ _ _ _ _ _ _ hh hs, hflag]
    by_cases h99 : h = 99
    · subst h99
      rw [if_pos rfl]
      by_cases hs59 : sec = 59
      · subst hs59
        rw [if_pos rfl]
        dsimp only
        refine ⟨by omega, ⟨by omega, by omega, by omega⟩, by simp, by simp⟩
      · rw [if_neg hs59]
        dsimp only
        refine ⟨by omega, ⟨by omega, by omega, by omega⟩, by simp, by simp; try omega⟩
    · rw [if_neg h99]
      dsimp only
      refine ⟨by omega, ⟨by omega, by omega, by omega⟩, by simp [h99], by simp [h99]⟩
  · intro μ σ h p tac tma tima pj hh hσ hμ
    have hflag : setsTickFlagBcd ⟨toBCD μ, toBCD σ, h, true, p, tac, tma, tima, pj⟩
        = decide (h = 127) := by
      simp only [setsTickFlagBcd, Bool.true_and]
      rw [decide_eq_decide]
      have e : ((h + 1) % 256) &&& 127 = (h + 1) % 128 := by
        rw [Nat.mod_eq_of_lt (by omega), mask127_eq_mod _ (by omega)]
      rw [e]
      omega
    rw [hflag]
    by_cases h127 : h = 127
    · subst h127
      by_cases hσ59 : σ = 59
      · subst hσ59
        rw [isr_bcd_step_min _ _ _ _ _ _ hμ]
        dsimp only
        refine ⟨by omega, ⟨0, by omega, by decide⟩, ⟨(μ + 1) % 100, by omega, rfl⟩,
          by simp, by simp; try decide⟩
      · rw [isr_bcd_step_sec _ _ _ _ _ _ _ (by omega)]
        dsimp only
        refine ⟨by omega, ⟨σ + 1, by omega, rfl⟩, ⟨μ, hμ, rfl⟩, by simp, ?_⟩
        simpa using toBCD_succ_ne σ (by omega)
    · rw [isr_bcd_step_no_roll _ _ _ _ _ _ _ _ (by omega)]
      dsimp only
      refine ⟨by omega, ⟨σ, hσ, rfl⟩, ⟨μ, hμ, rfl⟩, by simp [h127], by simp [h127]⟩

/-- Witness for C2: a concrete rollover invocation of the binary variant and a
concrete plain tick of the BCD variant. -/
theorem claim_c2_witness :
    (stopwatch_timer_isr ⟨0, 0, 99, true, false, 0, 0, 0, 0⟩).seconds < 60 ∧
    (stopwatch_timer_isr_bcd ⟨toBCD 0, toBCD 0, 5, true, false, 0, 0, 0, 0⟩).hundredths
      = (5 + 1) % 128 :=
  ⟨(claim_c2_isr_tick_contract.1 0 0 99 false 0 0 0 0 (by omega) (by omega)
      (by omega)).2.1.2.1,
   (claim_c2_isr_tick_contract.2 0 0 5 false 0 0 0 0 (by omega) (by omega) (by omega)).1⟩

/-- C3 counterexample: after exactly one hour of continuous running
(360000 ticks at N = 100) the binary-variant minutes field holds 60 — the
claimed "never exceeds 59 / wraps at 60" invariant fails. -/
theorem claim_c3_counterexample :
    (stopwatch_timer_isr^[360000] runningBoot).minutes = 60 ∧
    ¬ ((stopwatch_timer_isr^[360000] runningBoot).minutes ≤ 59) := by
  rw [runningBoot_eq, isr_iterate_closed]
  norm_num

/-- C3 (amended): in every reachable state of either variant hundredths < N,
seconds is in range (below 60 in binary; a valid BCD byte below 0x60 in the BCD
variant) and minutes is only byte-bounded (below 256 in binary; a valid BCD
byte in the BCD variant); minutes stays ≤ 59 (as a decoded value) only during
the first hour of continuous running — it reaches 60 at exactly N*3600 ticks —
and the increment wraps silently at the byte bound (256 in the binary variant,
BCD 0x99 → 0x00 in the BCD variant), not at 60. -/
theorem claim_c3_amended :
    (∀ (f : Bool) (s : SWState), Reach f s →
      s.hundredths < 100 ∧ s.seconds < 60 ∧ s.minutes < 256) ∧
    (∀ (f : Bool) (s : SWState), ReachBcd f s →
      s.hundredths < 128 ∧ (∃ σ, σ < 60 ∧ s.seconds = toBCD σ) ∧
      (∃ μ, μ < 100 ∧ s.minutes = toBCD μ)) ∧
    (∀ t, t < 100 * 3600 → (stopwatch_timer_isr^[t] runningBoot).minutes ≤ 59) ∧
    (∀ t, t < 128 * 3600 → ∃ μ, μ ≤ 59 ∧
      (stopwatch_timer_isr_bcd^[t] runningBoot).minutes = toBCD μ) ∧
    (stopwatch_timer_isr_bcd^[128 * 3600] runningBoot).minutes = toBCD 60 ∧
    (stopwatch_timer_isr ⟨255, 59, 99, true, false, 0, 0, 0, 0⟩).minutes = 0 ∧
    (stopwatch_timer_isr_bcd ⟨0x99, toBCD 59, 127, true, false, 0, 0, 0, 0⟩).minutes = 0 := by
  refine ⟨?_, ?_, ?_, ?_, ?_, ?_, ?_⟩
  · intro f s hreach
    induction hreach with
    | boot => exact ⟨by norm_num [boot], by norm_num [boot], by norm_num [boot]⟩
    | @isr s _ ih => exact isr_bin_preserves s ih.1 ih.2.1 ih.2.2
    | @inputs s cur _ ih =>
        rcases handle_inputs_counters false f cur s with ⟨e1, e2, e3⟩ | ⟨e1, e2, e3⟩ <;>
          exact ⟨by omega, by omega, by omega⟩
    | @loop s _ ih =>
        obtain ⟨e1, e2, e3⟩ := handle_stopwatch_counters s
        exact ⟨by omega, by omega, by omega⟩
    | start _ ih => exact ih
    | pause _ ih => exact ih
    | reset _ _ =>
        exact ⟨by norm_num [reset_stopwatch], by norm_num [reset_stopwatch],
          by norm_num [reset_stopwatch]⟩
  · intro f s hreach
    induction hreach with
    | boot => exact ⟨by norm_num [boot], ⟨0, by norm_num, rfl⟩, ⟨0, by norm_num, rfl⟩⟩
    | @isr s _ ih => exact isr_bcd_preserves s ih.1 ih.2.1 ih.2.2
    | @inputs s cur _ ih =>
        rcases handle_inputs_counters true f cur s with ⟨e1, e2, e3⟩ | ⟨e1, e2, e3⟩
        · obtain ⟨σ, hσ, hseq⟩ := ih.2.1
          obtain ⟨μ, hμ, hmeq⟩ := ih.2.2
          exact ⟨by omega, ⟨σ, hσ, by rw [e2, hseq]⟩, ⟨μ, hμ, by rw [e1, hmeq]⟩⟩
        · exact ⟨by omega, ⟨0, by omega, by rw [e2]; rfl⟩, ⟨0, by omega, by rw [e1]; rfl⟩⟩
    | @loop s _ ih =>
        obtain ⟨e1, e2, e3⟩ := handle_stopwatch_counters s
        obtain ⟨σ, hσ, hseq⟩ := ih.2.1
        obtain ⟨μ, hμ, hmeq⟩ := ih.2.2
        exact ⟨by omega, ⟨σ, hσ, by rw [e2, hseq]⟩, ⟨μ, hμ, by rw [e1, hmeq]⟩⟩
    | start _ ih => exact ih
    | pause _ ih => exact ih
    | reset _ _ =>
        exact ⟨by norm_num [reset_stopwatch], ⟨0, by norm_num, rfl⟩,
          ⟨0, by norm_num, rfl⟩⟩
  · intro t ht
    rw [runningBoot_eq, isr_iterate_closed]
    dsimp only
    omega
  · intro t ht
    rw [runningBoot_eq, isr_bcd_iterate_closed]
    exact ⟨t / 7680 % 100, by omega, rfl⟩
  · rw [runningBoot_eq, isr_bcd_iterate_closed]
    try decide
  · decide
  · decide

/-- Witness for C3's amended statement: both invariants instantiated at the
boot state and both one-hour bounds instantiated one tick before the hour. -/
theorem claim_c3_amended_witness :
    (boot.hundredths < 100 ∧ boot.seconds < 60 ∧ boot.minutes < 256) ∧
    (boot.hundredths < 128 ∧ (∃ σ, σ < 60 ∧ boot.seconds = toBCD σ) ∧
      (∃ μ, μ < 100 ∧ boot.minutes = toBCD μ)) ∧
    (stopwatch_timer_isr^[359999] runningBoot).minutes ≤ 59 ∧
    (∃ μ, μ ≤ 59 ∧ (stopwatch_timer_isr_bcd^[460799] runningBoot).minutes = toBCD μ) :=
  ⟨claim_c3_amended.1 false boot Reach.boot,
   claim_c3_amended.2.1 false boot ReachBcd.boot,
   claim_c3_amended.2.2.1 359999 (by norm_num),
   claim_c3_amended.2.2.2.1 460799 (by norm_num)⟩

/-- C4: in the BCD variant, an ISR invocation that rolls the sub-unit counter
while seconds = 0x59 leaves seconds at 0x00 (neither 0x5A nor 0x60) and
replaces minutes with bcdIncrement minutes (binary add-one followed by
decimal-adjust); the intermediate increment 0x59 → 0x60 is what the
`>= 0x60` rollover test catches. -/
theorem claim_c4_bcd_seconds_rollover :
    ∀ (m : Nat) (p : Bool) (tac tma tima pj : Nat),
      (stopwatch_timer_isr_bcd ⟨m, 0x59, 127, true, p, tac, tma, tima, pj⟩).seconds = 0x00 ∧
      (stopwatch_timer_isr_bcd ⟨m, 0x59, 127, true, p, tac, tma, tima, pj⟩).seconds ≠ 0x5A ∧
      (stopwatch_timer_isr_bcd ⟨m, 0x59, 127, true, p, tac, tma, tima, pj⟩).seconds ≠ 0x60 ∧
      (stopwatch_timer_isr_bcd ⟨m, 0x59, 127, true, p, tac, tma, tima, pj⟩).minutes
        = bcdIncrement m ∧
      bcdIncrement 0x59 = 0x60 ∧ 0x60 ≤ bcdIncrement 0x59 := by
  intro m p tac tma tima pj
  have e : stopwatch_timer_isr_bcd ⟨m, 0x59, 127, true, p, tac, tma, tima, pj⟩ =
      ⟨bcdIncrement m, 0, 0, true, true, tac, tma, tima, pj⟩ := by
    simp only [stopwatch_timer_isr_bcd, if_true]
    rw [show (((127 : Nat) + 1) % 256) &&& 127 = 0 from by decide, if_pos rfl,
      show bcdIncrement 0x59 = 0x60 from by decide, if_pos (by norm_num)]
  rw [e]
  exact ⟨rfl, by norm_num, by norm_num, rfl, by decide, by decide⟩

/-- C5: a B press-edge (A not held) while the stopwatch is Idle zeroes all
three counters through `reset_stopwatch`, for every prior value; the same
press-edge while Running is rejected and changes nothing but the remembered
joypad mask. -/
theorem claim_c5_reset_only_when_idle :
    (∀ (u f : Bool) (s : SWState) (cur : Nat),
      s.stopwatch = false → cur &&& J_B ≠ 0 → s.prev_joypad &&& J_B = 0 →
      cur &&& J_A = 0 →
      (handle_inputs u f cur s).minutes = 0 ∧ (handle_inputs u f cur s).seconds = 0 ∧
      (handle_inputs u f cur s).hundredths = 0) ∧
    (∀ (u f : Bool) (s : SWState) (cur : Nat),
      s.stopwatch = true → cur &&& J_B ≠ 0 → s.prev_joypad &&& J_B = 0 →
      cur &&& J_A = 0 →
      handle_inputs u f cur s = { s with prev_joypad := cur }) := by
  constructor
  · intro u f s cur hidle hB hBp hA
    simp [handle_inputs, reset_stopwatch, hidle, hA, hB, hBp]
  · intro u f s cur hrun hB hBp hA
    simp [handle_inputs, hrun, hA, hB, hBp]

/-- Witness for C5: a B press-edge applied to a concrete Idle state and to a
concrete Running state. -/
theorem claim_c5_witness :
    ((handle_inputs false false 32 ⟨7, 8, 9, false, false, 0, 0, 0, 0⟩).minutes = 0 ∧
     (handle_inputs false false 32 ⟨7, 8, 9, false, false, 0, 0, 0, 0⟩).seconds = 0 ∧
     (handle_inputs false false 32 ⟨7, 8, 9, false, false, 0, 0, 0, 0⟩).hundredths = 0) ∧
    handle_inputs true false 32 ⟨7, 8, 9, true, false, 4, 0, 0, 0⟩ =
      { (⟨7, 8, 9, true, false, 4, 0, 0, 0⟩ : SWState) with prev_joypad := 32 } :=
  ⟨claim_c5_reset_only_when_idle.1 false false _ 32 rfl (by decide) (by decide) (by decide),
   claim_c5_reset_only_when_idle.2 true false _ 32 rfl (by decide) (by decide) (by decide)⟩

/-- C6: pausing writes Stopped to the timer divider and clears the run flag,
and leaves the counters and the in-flight TIMA/TMA registers untouched. -/
theorem claim_c6_pause_frame_effect :
    ∀ s : SWState,
      (pause_stopwatch s).tac = TAC_REG_STOP ∧ (pause_stopwatch s).stopwatch = false ∧
      (pause_stopwatch s).minutes = s.minutes ∧ (pause_stopwatch s).seconds = s.seconds ∧
      (pause_stopwatch s).hundredths = s.hundredths ∧
      (pause_stopwatch s).tima = s.tima ∧ (pause_stopwatch s).tma = s.tma :=
  fun _ => ⟨rfl, rfl, rfl, rfl, rfl, rfl, rfl⟩

/-- On an input-free frame the loop only stores the polled (empty) joypad mask
and possibly clears the cue flag: the counters are untouched. -/
lemma frame_idle_counters (u f : Bool) (s : SWState) :
    (frame u f 0 s).minutes = s.minutes ∧ (frame u f 0 s).seconds = s.seconds ∧
    (frame u f 0 s).hundredths = s.hundredths := by
  unfold frame
  have e : handle_inputs u f 0 s = { s with prev_joypad := 0 } := by
    simp only [handle_inputs]
    rw [if_neg (by simp), if_neg (by simp)]
  rw [e]
  obtain ⟨e1, e2, e3⟩ := handle_stopwatch_counters { s with prev_joypad := 0 }
  exact ⟨e1, e2, e3⟩

/-- C7: pausing twice in a row equals pausing once, and any number of
button-free main-loop frames leave minutes, seconds and hundredths unchanged —
the counters move only inside ISR invocations. -/
theorem claim_c7_pause_idempotent_frames_freeze :
    (∀ s : SWState, pause_stopwatch (pause_stopwatch s) = pause_stopwatch s) ∧
    (∀ (u f : Bool) (k : Nat) (s : SWState),
      ((frame u f 0)^[k] s).minutes = s.minutes ∧
      ((frame u f 0)^[k] s).seconds = s.seconds ∧
      ((frame u f 0)^[k] s).hundredths = s.hundredths) := by
  constructor
  · intro s; rfl
  · intro u f k
    induction k with
    | zero => intro s; exact ⟨rfl, rfl, rfl⟩
    | succ k ih =>
      intro s
      rw [Function.iterate_succ_apply']
      obtain ⟨e1, e2, e3⟩ := frame_idle_counters u f ((frame u f 0)^[k] s)
      obtain ⟨i1, i2, i3⟩ := ih s
      exact ⟨by omega, by omega, by omega⟩

/-- C8 counterexample: no single baseTicks makes the part_000 stopwatch modulo
follow 256 - (baseTicks / speedFactor) for both speeds — the Normal value
forces baseTicks = 32, which would predict 240 for Double, but the code writes
192 (= 256 - 32 * 2). -/
theorem claim_c8_counterexample :
    ¬ ∃ baseTicks : Nat,
        set_timer_reg_stopwatch false = 256 - baseTicks / 1 ∧
        set_timer_reg_stopwatch true = 256 - baseTicks / 2 := by
  rintro ⟨b, h1, h2⟩
  simp only [set_timer_reg_stopwatch, Bool.false_eq_true, if_false, if_true] at h1 h2
  omega

/-- C8 (amended): main.c's realtime modulo follows 256 - (baseTicks /
speedFactor) with baseTicks = 164 (it also switches the TAC divider between
speeds), while part_000's stopwatch modulo follows 256 - (baseTicks *
speedFactor) with baseTicks = 32 (same TAC divider at both speeds); in both
variants the per-overflow tick count compensates the CPU speed so the
interrupt fires at the same fixed rate on both speeds (timer increment rates:
16384 Hz / 8192 Hz for main.c, 4096 Hz / 8192 Hz for part_000). -/
theorem claim_c8_amended :
    (set_timer_realtime_reg false).1 = 256 - 164 / 1 ∧
    (set_timer_realtime_reg true).1 = 256 - 164 / 2 ∧
    set_timer_reg_stopwatch false = 256 - 32 * 1 ∧
    set_timer_reg_stopwatch true = 256 - 32 * 2 ∧
    (256 - (set_timer_realtime_reg false).1) * 8192
      = (256 - (set_timer_realtime_reg true).1) * 16384 ∧
    (256 - set_timer_reg_stopwatch false) * 8192
      = (256 - set_timer_reg_stopwatch true) * 4096 := by
  decide

/-- C9 counterexample: ISR invocations number 100 and number 200 (the ones
applied to the states reached after 99 and 199 ticks) both write the tick-cue
flag, and both lie inside the first 60 seconds (6000 ticks) of the run — the
flag is written far more than once per 60 seconds. -/
theorem claim_c9_counterexample :
    setsTickFlag (stopwatch_timer_isr^[99] runningBoot) = true ∧
    setsTickFlag (stopwatch_timer_isr^[199] runningBoot) = true ∧
    (99 : Nat) < 6000 ∧ (199 : Nat) < 6000 := by
  rw [runningBoot_eq, isr_iterate_closed, isr_iterate_closed]
  refine ⟨by decide, by decide, by norm_num, by norm_num⟩

/-- C9 (amended): in either variant the ISR writes the tick-cue flag on
exactly one invocation per second — invocation t+1 writes it iff
t mod N = N - 1 (N = 100 binary, N = 128 BCD), hence exactly one write in each
window of N consecutive invocations — and the consumer loop observes (fires
the cue) and clears each write at most once: a running frame with the flag set
fires and clears it, and an immediately repeated frame never fires again. -/
theorem claim_c9_amended :
    (∀ t : Nat, setsTickFlag (stopwatch_timer_isr^[t] runningBoot) = true ↔ t % 100 = 99) ∧
    (∀ t : Nat,
      setsTickFlagBcd (stopwatch_timer_isr_bcd^[t] runningBoot) = true ↔ t % 128 = 127) ∧
    (∀ k : Nat, ((Finset.range 100).filter
        (fun i => setsTickFlag (stopwatch_timer_isr^[100 * k + i] runningBoot) = true)).card
      = 1) ∧
    (∀ k : Nat, ((Finset.range 128).filter
        (fun i => setsTickFlagBcd (stopwatch_timer_isr_bcd^[128 * k + i] runningBoot)
          = true)).card = 1) ∧
    (∀ s : SWState, s.stopwatch = true → s.play_tick_sfx = true →
      (handle_stopwatch s).2 = true ∧ (handle_stopwatch s).1.play_tick_sfx = false) ∧
    (∀ s : SWState, (handle_stopwatch (handle_stopwatch s).1).2 = false) := by
  have key : ∀ t : Nat,
      setsTickFlag (stopwatch_timer_isr^[t] runningBoot) = true ↔ t % 100 = 99 := by
    intro t
    rw [runningBoot_eq, isr_iterate_closed]
    simp only [setsTickFlag, Bool.true_and, decide_eq_true_eq]
    omega
  have keyBcd : ∀ t : Nat,
      setsTickFlagBcd (stopwatch_timer_isr_bcd^[t] runningBoot) = true ↔ t % 128 = 127 := by
    intro t
    rw [runningBoot_eq, isr_bcd_iterate_closed]
    simp only [setsTickFlagBcd, Bool.true_and, decide_eq_true_eq]
    rw [Nat.mod_eq_of_lt (by omega : t % 128 + 1 < 256), mask127_eq_mod _ (by omega)]
    omega
  refine ⟨key, keyBcd, ?_, ?_, ?_, ?_⟩
  · intro k
    have e : (Finset.range 100).filter
        (fun i => setsTickFlag (stopwatch_timer_isr^[100 * k + i] runningBoot) = true)
        = {99} := by
      ext i
      simp only [Finset.mem_filter, Finset.mem_range, Finset.mem_singleton, key]
      omega
    rw [e]
    rfl
  · intro k
    have e : (Finset.range 128).filter
        (fun i => setsTickFlagBcd (stopwatch_timer_isr_bcd^[128 * k + i] runningBoot) = true)
        = {127} := by
      ext i
      simp only [Finset.mem_filter, Finset.mem_range, Finset.mem_singleton, keyBcd]
      omega
    rw [e]
    rfl
  · intro s hrun hflag
    simp [handle_stopwatch, hrun, hflag]
  · intro s
    by_cases h1 : s.stopwatch <;> by_cases h2 : s.play_tick_sfx <;>
      simp [handle_stopwatch, h1, h2]

/-- Witness for C9's amended statement: the consumer clauses at a concrete
state with the flag raised. -/
theorem claim_c9_amended_witness :
    (handle_stopwatch ⟨0, 1, 2, true, true, 0, 0, 0, 0⟩).2 = true ∧
    (handle_stopwatch ⟨0, 1, 2, true, true, 0, 0, 0, 0⟩).1.play_tick_sfx = false :=
  claim_c9_amended.2.2.2.2.1 ⟨0, 1, 2, true, true, 0, 0, 0, 0⟩ rfl rfl

/-- C10: for every sub-unit value v in 0..127 the lookup table holds exactly
the two decimal digits of floor(v * 100 / 128) — so the displayed hundredths
field equals the 0..127 counter rescaled to 0..99 — and the displayed value is
monotone in v. -/
theorem claim_c10_miltable_rescales :
    (∀ v : Nat, v < 128 →
      milValue v = v * 100 / 128 ∧
      milDigit v 0 = v * 100 / 128 / 10 ∧
      milDigit v 1 = v * 100 / 128 % 10) ∧
    (∀ v w : Nat, v ≤ w → w < 128 → milValue v ≤ milValue w) := by
  have base : ∀ v : Nat, v < 128 →
      milValue v = v * 100 / 128 ∧ milDigit v 0 = v * 100 / 128 / 10 ∧
      milDigit v 1 = v * 100 / 128 % 10 := by decide
  refine ⟨base, ?_⟩
  intro v w hvw hw
  rw [(base v (lt_of_le_of_lt hvw hw)).1, (base w hw).1]
  exact Nat.div_le_div_right (Nat.mul_le_mul_right _ hvw)

/-- Witness for C10 at v = 64 and the pair (13, 14). -/
theorem claim_c10_witness :
    milValue 64 = 64 * 100 / 128 ∧ milValue 13 ≤ milValue 14 :=
  ⟨(claim_c10_miltable_rescales.1 64 (by norm_num)).1,
   claim_c10_miltable_rescales.2 13 14 (by norm_num) (by norm_num)⟩

end GBStopwatch
